import Mathlib

/-
Shallow embedding of `src/bpf/aya-bpf/src/maps/array.rs` (the `Array<T>`
eBPF array-map handle) and proofs of the specification claims about it.

Machine integers (u32) are modelled as `Nat` with explicit `% 2^32` where
the source performs a truncating cast.  Raw pointers are modelled as `Nat`
addresses, with `0` standing for the null pointer.  The external host
subsystem (the kernel serving `bpf_map_lookup_elem`) is modelled as a
`World` value: an oracle mapping (map pointer, key bytes) to the returned
pointer.  `Array::get` is embedded as a function that, besides its result,
returns the trace of external calls it issued and the (unchanged) handle,
so that call-count and frame properties are statable.
-/

namespace Aya

/-- 2^32, the modulus of the u32 machine-integer type. -/
def U32_MOD : Nat := 4294967296

/-- Modelled from the spec: the loader-facing metadata record `bpf_map_def`
(declared in the repository's `bindings` module, which is not part of the
fragment).  The spec fixes its exact shape: a fixed-layout record of seven
u32 fields, in this order: type tag, key size, value size, max entries,
map flags, id, pinning.  The Lean field declaration order mirrors that
memory order. -/
structure bpf_map_def where
  type_ : Nat
  key_size : Nat
  value_size : Nat
  max_entries : Nat
  map_flags : Nat
  id : Nat
  pinning : Nat
deriving DecidableEq

/-- Modelled from the spec: the record as the flat sequence of 32-bit words
the loader parses, in declared memory order. -/
def bpf_map_def.layout (d : bpf_map_def) : List Nat :=
  [d.type_, d.key_size, d.value_size, d.max_entries, d.map_flags, d.id, d.pinning]

/-- Modelled from the spec: the pinning-mode enumeration {None, ByName}
(declared in the repository's `maps` module, not part of the fragment). -/
inductive PinningType where
  | noPin : PinningType
  | byName : PinningType
deriving DecidableEq

/-- Modelled from the spec: the enumeration discriminant as stored in the
u32 `pinning` field (`PinningType::None as u32`, `PinningType::ByName as
u32`); the first-listed variant has discriminant 0. -/
def PinningType.toU32 : PinningType → Nat
  | .noPin => 0
  | .byName => 1

/-- Modelled from the spec: the fixed constant identifying "array map" in
the target platform's map-type enumeration (`BPF_MAP_TYPE_ARRAY`), an
opaque numeric identifier reproduced from the platform bindings, which are
not part of the fragment. -/
def BPF_MAP_TYPE_ARRAY : Nat := 2

/-- `mem::size_of::<u32>()`: the byte width of a 32-bit unsigned integer. -/
def size_of_u32 : Nat := 4

/-- The `Array<T>` handle: a `repr(transparent)` struct holding the
`bpf_map_def` descriptor inside an `UnsafeCell` (layout-transparent) plus a
zero-sized `PhantomData<T>`.  The element type `T` itself carries no data
here; its byte size enters only through the constructors, which take it as
the `sizeOfT` parameter standing for `mem::size_of::<T>()`. -/
structure Array where
  def_ : bpf_map_def
deriving DecidableEq

/-- `Array::with_max_entries(max_entries, flags)`: builds the descriptor
with the fixed array type tag, `key_size = size_of::<u32>()`,
`value_size = size_of::<T>() as u32` (a truncating cast, hence `% 2^32`),
the given capacity and flags, `id = 0`, and pinning mode `None`. -/
def Array.with_max_entries (sizeOfT : Nat) (max_entries : Nat) (flags : Nat) : Array :=
  { def_ :=
    { type_ := BPF_MAP_TYPE_ARRAY
      key_size := size_of_u32
      value_size := sizeOfT % U32_MOD
      max_entries := max_entries
      map_flags := flags
      id := 0
      pinning := PinningType.toU32 PinningType.noPin } }

/-- `Array::pinned(max_entries, flags)`: identical to `with_max_entries`
except that the pinning mode is `ByName`. -/
def Array.pinned (sizeOfT : Nat) (max_entries : Nat) (flags : Nat) : Array :=
  { def_ :=
    { type_ := BPF_MAP_TYPE_ARRAY
      key_size := size_of_u32
      value_size := sizeOfT % U32_MOD
      max_entries := max_entries
      map_flags := flags
      id := 0
      pinning := PinningType.toU32 PinningType.byName } }

/-- One call to the external lookup helper: the map pointer passed as first
argument and the key bytes the key pointer designates. -/
structure LookupCall where
  map : Nat
  key : List Nat
deriving DecidableEq

/-- The external host subsystem: responds to a raw lookup (map pointer, key
bytes) with a raw pointer into host-owned storage; `0` is the null pointer. -/
structure World where
  raw_lookup : Nat → List Nat → Nat

/-- The fixed-width 4-byte little-endian key representation of the u32
index: the bytes found at `&index as *const u32` reinterpreted as the key. -/
def serialize_u32 (i : Nat) : List Nat :=
  [i % 256, i / 256 % 256, i / 65536 % 256, i / 16777216 % 256]

/-- Reassemble little-endian bytes into the number they represent. -/
def bytesToNat : List Nat → Nat
  | [] => 0
  | b :: bs => b + 256 * bytesToNat bs

/-- `helpers::bpf_map_lookup_elem(def_ptr, key_ptr)`: the external foreign
call.  Returns the host subsystem's pointer answer together with the trace
of the single external call this invocation performs. -/
def bpf_map_lookup_elem (w : World) (map : Nat) (key : List Nat) : Nat × List LookupCall :=
  (w.raw_lookup map key, [⟨map, key⟩])

/-- `core::ptr::NonNull::new(p)`: `none` on the null pointer, `some p`
otherwise; no other inspection of `p`. -/
def NonNull.new (p : Nat) : Option Nat :=
  if p = 0 then none else some p

/-- `Array::get(&self, index)`.  `self_addr` is the address of `self.def`
(`self.def.get() as *mut _`; `repr(transparent)` makes it the address of
`self`).  The body serializes the index, issues the one external lookup
call, and maps `NonNull::new` over the answer; `p.as_ref()` yields the
reference at exactly the address `p`, modelled as that address.  The result
carries the returned option, the trace of external calls, and the handle
after the call (the body contains no store to the descriptor). -/
def Array.get (w : World) (a : Array) (self_addr : Nat) (index : Nat) :
    Option Nat × List LookupCall × Array :=
  let key := serialize_u32 index
  let r := bpf_map_lookup_elem w self_addr key
  ((NonNull.new r.1).map (fun p => p), r.2, a)

/-- A host subsystem that answers every lookup with the null pointer. -/
def nullWorld : World := ⟨fun _ _ => 0⟩

/-- A host subsystem that answers every lookup with the pointer `p`. -/
def constWorld (p : Nat) : World := ⟨fun _ _ => p⟩

/-- A host subsystem modelling a capacity-1 array map: only the slot at
index 0 is served (at address 1000); every other key gets null. -/
def capOneWorld : World :=
  ⟨fun _ key => if bytesToNat key = 0 then 1000 else 0⟩

/-- Claim C1: `get(index)` returns `none` exactly when the external
`raw_lookup` call returns the null pointer, and returns `some p` exactly
when the lookup returns the non-null pointer `p`, the returned reference
being the very memory the pointer designates; no reference is ever
produced from a null answer. -/
theorem get_null_check (w : World) (a : Array) (addr i : Nat) :
    ((Array.get w a addr i).1 = none ↔ w.raw_lookup addr (serialize_u32 i) = 0) ∧
    ∀ p, ((Array.get w a addr i).1 = some p ↔
      (w.raw_lookup addr (serialize_u32 i) = p ∧ p ≠ 0)) := by
  unfold Array.get bpf_map_lookup_elem NonNull.new
  constructor
  · by_cases h : w.raw_lookup addr (serialize_u32 i) = 0 <;> simp [h]
  · intro p
    by_cases h : w.raw_lookup addr (serialize_u32 i) = 0 <;> simp [h] <;> omega

/-- Claim C2: for every element size and all `max_entries` and `flags`
values, both constructors set `key_size` to the byte size of a u32 and
`value_size` to the byte size of `T`. -/
theorem descriptor_sizes (s n f : Nat) (h : s < U32_MOD) :
    (Array.with_max_entries s n f).def_.key_size = size_of_u32 ∧
    (Array.with_max_entries s n f).def_.value_size = s ∧
    (Array.pinned s n f).def_.key_size = size_of_u32 ∧
    (Array.pinned s n f).def_.value_size = s := by
  refine ⟨rfl, ?_, rfl, ?_⟩ <;>
    simp [Array.with_max_entries, Array.pinned, Nat.mod_eq_of_lt h]

/-- Claim C2 witness: instantiated at element size 8, capacity 1, flags 0. -/
theorem descriptor_sizes_witness :
    8 < U32_MOD ∧
    ((Array.with_max_entries 8 1 0).def_.key_size = size_of_u32 ∧
     (Array.with_max_entries 8 1 0).def_.value_size = 8 ∧
     (Array.pinned 8 1 0).def_.key_size = size_of_u32 ∧
     (Array.pinned 8 1 0).def_.value_size = 8) :=
  ⟨by decide, descriptor_sizes 8 1 0 (by decide)⟩

/-- Claim C3: `with_max_entries(n, f)` and `pinned(n, f)` agree on every
descriptor field except `pinning`: the former records pinning mode `None`,
the latter `ByName`. -/
theorem constructors_differ_only_in_pinning (s n f : Nat) :
    (Array.with_max_entries s n f).def_.type_ = (Array.pinned s n f).def_.type_ ∧
    (Array.with_max_entries s n f).def_.key_size = (Array.pinned s n f).def_.key_size ∧
    (Array.with_max_entries s n f).def_.value_size = (Array.pinned s n f).def_.value_size ∧
    (Array.with_max_entries s n f).def_.max_entries = (Array.pinned s n f).def_.max_entries ∧
    (Array.with_max_entries s n f).def_.map_flags = (Array.pinned s n f).def_.map_flags ∧
    (Array.with_max_entries s n f).def_.id = (Array.pinned s n f).def_.id ∧
    (Array.with_max_entries s n f).def_.pinning = PinningType.toU32 PinningType.noPin ∧
    (Array.pinned s n f).def_.pinning = PinningType.toU32 PinningType.byName :=
  ⟨rfl, rfl, rfl, rfl, rfl, rfl, rfl, rfl⟩

/-- Claim C4: every invocation of `get(index)` issues exactly one external
lookup call, whose map argument is the descriptor address and whose key is
the fixed-width 4-byte serialized representation of the u32 index (the
bytes reassemble to the index). -/
theorem get_single_call (w : World) (a : Array) (addr i : Nat) (h : i < U32_MOD) :
    (Array.get w a addr i).2.1 = [⟨addr, serialize_u32 i⟩] ∧
    (serialize_u32 i).length = 4 ∧
    bytesToNat (serialize_u32 i) = i := by
  refine ⟨rfl, rfl, ?_⟩
  simp only [serialize_u32, bytesToNat]
  simp only [U32_MOD] at h
  omega

/-- Claim C4 witness: instantiated at the all-null host, a concrete
descriptor at address 0, and index 7. -/
theorem get_single_call_witness :
    7 < U32_MOD ∧
    ((Array.get nullWorld (Array.with_max_entries 8 1 0) 0 7).2.1 =
      [⟨0, serialize_u32 7⟩] ∧
     (serialize_u32 7).length = 4 ∧
     bytesToNat (serialize_u32 7) = 7) :=
  ⟨by decide, get_single_call nullWorld (Array.with_max_entries 8 1 0) 0 7 (by decide)⟩

/-- Claim C5: `get` never compares the index against `max_entries`: for
every index whatsoever (no bound relating it to the capacity), `get`
returns a value (no panic is possible for a total function) and returns
`none` whenever the underlying lookup answers null. -/
theorem get_absent_on_null (w : World) (a : Array) (addr i : Nat)
    (h : w.raw_lookup addr (serialize_u32 i) = 0) :
    (Array.get w a addr i).1 = none := by
  simp [Array.get, bpf_map_lookup_elem, NonNull.new, h]

/-- Claim C5 witness: index 5 requested against a map of capacity 1 — the
index exceeds the capacity, the lookup answers null, and `get` returns
`none`. -/
theorem get_absent_on_null_witness :
    (Array.with_max_entries 8 1 0).def_.max_entries < 5 ∧
    capOneWorld.raw_lookup 0 (serialize_u32 5) = 0 ∧
    (Array.get capOneWorld (Array.with_max_entries 8 1 0) 0 5).1 = none :=
  ⟨by decide, by decide,
    get_absent_on_null capOneWorld (Array.with_max_entries 8 1 0) 0 5 (by decide)⟩

/-- Claim C6: every constructed descriptor consists of exactly the seven
u32 fields { type tag, key size, value size, max entries, map flags, id,
pinning } in that memory order, with the type tag equal to the fixed
array-map constant and `id` zero at construction; every word of the layout
fits in a u32 when the u32 inputs do. -/
theorem descriptor_exact_layout (s n f : Nat) (hn : n < U32_MOD) (hf : f < U32_MOD) :
    (Array.with_max_entries s n f).def_.layout =
      [BPF_MAP_TYPE_ARRAY, size_of_u32, s % U32_MOD, n, f, 0,
        PinningType.toU32 PinningType.noPin] ∧
    (Array.pinned s n f).def_.layout =
      [BPF_MAP_TYPE_ARRAY, size_of_u32, s % U32_MOD, n, f, 0,
        PinningType.toU32 PinningType.byName] ∧
    (∀ x ∈ (Array.with_max_entries s n f).def_.layout, x < U32_MOD) ∧
    (∀ x ∈ (Array.pinned s n f).def_.layout, x < U32_MOD) ∧
    (Array.with_max_entries s n f).def_.type_ = BPF_MAP_TYPE_ARRAY ∧
    (Array.pinned s n f).def_.type_ = BPF_MAP_TYPE_ARRAY ∧
    (Array.with_max_entries s n f).def_.id = 0 ∧
    (Array.pinned s n f).def_.id = 0 := by
  simp only [U32_MOD] at hn hf
  refine ⟨rfl, rfl, ?_, ?_, rfl, rfl, rfl, rfl⟩ <;>
    · intro x hx
      simp [Array.with_max_entries, Array.pinned, bpf_map_def.layout,
        BPF_MAP_TYPE_ARRAY, size_of_u32, PinningType.toU32, U32_MOD] at hx ⊢
      omega

/-- Claim C6 witness: instantiated at element size 8, capacity 1, flags 0. -/
theorem descriptor_exact_layout_witness :
    1 < U32_MOD ∧ 0 < U32_MOD ∧
    ((Array.with_max_entries 8 1 0).def_.layout =
      [BPF_MAP_TYPE_ARRAY, size_of_u32, 8 % U32_MOD, 1, 0, 0,
        PinningType.toU32 PinningType.noPin] ∧
     (Array.pinned 8 1 0).def_.layout =
      [BPF_MAP_TYPE_ARRAY, size_of_u32, 8 % U32_MOD, 1, 0, 0,
        PinningType.toU32 PinningType.byName] ∧
     (∀ x ∈ (Array.with_max_entries 8 1 0).def_.layout, x < U32_MOD) ∧
     (∀ x ∈ (Array.pinned 8 1 0).def_.layout, x < U32_MOD) ∧
     (Array.with_max_entries 8 1 0).def_.type_ = BPF_MAP_TYPE_ARRAY ∧
     (Array.pinned 8 1 0).def_.type_ = BPF_MAP_TYPE_ARRAY ∧
     (Array.with_max_entries 8 1 0).def_.id = 0 ∧
     (Array.pinned 8 1 0).def_.id = 0) :=
  ⟨by decide, by decide, descriptor_exact_layout 8 1 0 (by decide) (by decide)⟩

/-- Claim C7: `get` mutates no field of the descriptor: after the call,
every one of the seven fields holds exactly the value it held before. -/
theorem get_preserves_descriptor (w : World) (a : Array) (addr i : Nat) :
    (Array.get w a addr i).2.2.def_.type_ = a.def_.type_ ∧
    (Array.get w a addr i).2.2.def_.key_size = a.def_.key_size ∧
    (Array.get w a addr i).2.2.def_.value_size = a.def_.value_size ∧
    (Array.get w a addr i).2.2.def_.max_entries = a.def_.max_entries ∧
    (Array.get w a addr i).2.2.def_.map_flags = a.def_.map_flags ∧
    (Array.get w a addr i).2.2.def_.id = a.def_.id ∧
    (Array.get w a addr i).2.2.def_.pinning = a.def_.pinning :=
  ⟨rfl, rfl, rfl, rfl, rfl, rfl, rfl⟩

/-- Claim C8: construction is deterministic and side-effect-free: two calls
of the same constructor with identical arguments produce descriptors whose
field values are pairwise identical. -/
theorem constructors_deterministic (s n f t m g : Nat)
    (hs : s = t) (hn : n = m) (hf : f = g) :
    Array.with_max_entries s n f = Array.with_max_entries t m g ∧
    Array.pinned s n f = Array.pinned t m g := by
  subst hs; subst hn; subst hf
  exact ⟨rfl, rfl⟩

/-- Claim C8 witness: two calls at element size 8, capacity 1, flags 0. -/
theorem constructors_deterministic_witness :
    Array.with_max_entries 8 1 0 = Array.with_max_entries 8 1 0 ∧
    Array.pinned 8 1 0 = Array.pinned 8 1 0 :=
  constructors_deterministic 8 1 0 8 1 0 rfl rfl rfl

/-- Claim C9: when `get` returns a reference, it designates exactly the
address `raw_lookup` returned — no offset, no copy, and no alignment check
or adjustment: any non-null answer, aligned or not, is passed through
unchanged. -/
theorem get_exact_address (w : World) (a : Array) (addr i : Nat) :
    (∀ r, (Array.get w a addr i).1 = some r →
      r = w.raw_lookup addr (serialize_u32 i)) ∧
    (∀ p, w.raw_lookup addr (serialize_u32 i) = p → p ≠ 0 →
      (Array.get w a addr i).1 = some p) := by
  unfold Array.get bpf_map_lookup_elem NonNull.new
  constructor
  · intro r hr
    by_cases h : w.raw_lookup addr (serialize_u32 i) = 0
    · simp [h] at hr
    · simp [h] at hr
      simp [hr]
  · intro p hp hp0
    simp [hp, hp0]

/-- Claim C9 witness: a host answering with the odd (hence misaligned for
any multi-byte `T`) address 1001 — `get` returns exactly `some 1001`. -/
theorem get_exact_address_witness :
    ((Array.get (constWorld 1001) (Array.with_max_entries 8 1 0) 0 0).1 = some 1001 →
      (1001 : Nat) = (constWorld 1001).raw_lookup 0 (serialize_u32 0)) ∧
    (Array.get (constWorld 1001) (Array.with_max_entries 8 1 0) 0 0).1 = some 1001 :=
  ⟨(get_exact_address (constWorld 1001) (Array.with_max_entries 8 1 0) 0 0).1 1001,
   (get_exact_address (constWorld 1001) (Array.with_max_entries 8 1 0) 0 0).2 1001
     rfl (by decide)⟩

/-- Claim C10: the result of `get` depends only on the pointer `raw_lookup`
returns, not on any descriptor field: for any two handles (in particular
one built with `with_max_entries` and one with `pinned`, with arbitrary
capacities and flags), hosts and indices, equal lookup answers give equal
`get` results. -/
theorem get_depends_only_on_lookup (w1 w2 : World) (a1 a2 : Array)
    (d1 d2 i1 i2 : Nat)
    (h : w1.raw_lookup d1 (serialize_u32 i1) = w2.raw_lookup d2 (serialize_u32 i2)) :
    (Array.get w1 a1 d1 i1).1 = (Array.get w2 a2 d2 i2).1 := by
  simp [Array.get, bpf_map_lookup_elem, NonNull.new, h]

/-- Claim C10 witness: a `with_max_entries` handle and a `pinned` handle
with different sizes, capacities, flags and indices, both served the same
pointer, give the same result. -/
theorem get_depends_only_on_lookup_witness :
    (constWorld 1000).raw_lookup 0 (serialize_u32 0) =
      (constWorld 1000).raw_lookup 64 (serialize_u32 5) ∧
    (Array.get (constWorld 1000) (Array.with_max_entries 8 1 0) 0 0).1 =
      (Array.get (constWorld 1000) (Array.pinned 4 7 3) 64 5).1 :=
  ⟨rfl, get_depends_only_on_lookup (constWorld 1000) (constWorld 1000)
    (Array.with_max_entries 8 1 0) (Array.pinned 4 7 3) 0 64 0 5 rfl⟩

end Aya
